import Mathlib

/-
Verification of the fetch-cache-classify pipeline of src/src/tools/transcript.ts.

The source file defines two calling conventions for the same pipeline:
  - getTranscriptHandler (lines 42-134): returns an MCP result object
    carrying a text item and a boolean isError flag;
  - getTranscript (lines 199-278): returns the transcript text or throws
    an Error carrying the presentable message.

The collaborators (url-normalize, cache, youtube, analytics modules) are
repository code not present under src/; they are modelled as abstract
parameters of the pipeline (an Urls record and an Env record of collaborator
behaviours), and for the concrete scenario of claim C9 the URL utilities are
modelled from the spec.  Each run of the pipeline is deterministic given the
Env; the pipeline returns its result together with a trace of the effects it
performed (counter increments, cache read, fetch, analytics log, cache write),
so that claims about "the fetcher is not invoked" or "the cache afterwards
holds v" are statable.
-/

/-- The tool input of getTranscriptHandler: { url: string; language?: string }.
An omitted language is modelled as none; the source destructuring
  const { url, language = "en" } = input
is modelled by Option.getD. -/
structure ToolInput where
  url : String
  language : Option String
deriving DecidableEq

/-- One content item of an MCP result: { type: "text", text } . -/
structure ContentItem where
  ty : String
  text : String
deriving DecidableEq

/-- The value returned by getTranscriptHandler:
{ content: [...], isError: boolean }. -/
structure McpResult where
  content : List ContentItem
  isError : Bool
deriving DecidableEq

/-- A raw fetch fault as thrown by the youtube fetch capability: an Error
object with a name and a message (the source reads both error.name and
error.message). -/
structure FetchError where
  name : String
  message : String
deriving DecidableEq

/-- The effects a single pipeline run can perform against its collaborators,
in the order performed.  The ok flags record whether the collaborator call
succeeded; fire-and-forget calls record their outcome here even though the
pipeline never observes it. -/
inductive Effect where
  | counterDaily (ok : Bool)
  | counterVideo (id : String) (ok : Bool)
  | cacheRead (id lang : String)
  | fetch (id lang : String)
  | analyticsLog (id : String) (success : Bool) (errorName : String) (ok : Bool)
  | cacheWrite (id lang text : String) (isError : Bool) (ok : Bool)
deriving DecidableEq

/-- The URL utilities imported from ../utils/url-normalize (module not under
src/): kept abstract, the pipeline is parametric in them. -/
structure Urls where
  isValidYouTubeUrl : String → Bool
  normalizeYouTubeUrl : String → String
  extractVideoId : String → Option String

/-- The environment of one run: the truthiness of the two store bindings the
source tests (env.TRANSCRIPT_KV in getTranscriptHandler, env.TRANSCRIPT_CACHE
in getTranscript), the cache store contents, fault injections for the cache
read and write, the outcomes of the fire-and-forget counter and analytics
calls, the fetch capability, and the error classifier handleYouTubeErrors
(from ../lib/youtube, not under src/, kept abstract). -/
structure Env where
  kvPresent : Bool
  cachePresent : Bool
  store : String × String → Option String
  readFault : Option String
  writeFault : Option String
  dailyOk : Bool
  videoOk : Bool
  analyticsOk : Bool
  fetchResult : String → String → Except FetchError String
  classify : FetchError → String

/-- Leading-match test on strings, modelling JavaScript
String.prototype.startsWith; written over the character lists so that it
evaluates by kernel reduction. -/
def jsStartsWith (s pre : String) : Bool :=
  pre.data.isPrefixOf s.data

/-- Auxiliary: sub occurs as a contiguous run somewhere in the list. -/
def containsSub (sub : List Char) : List Char → Bool
  | [] => sub.isPrefixOf ([] : List Char)
  | c :: cs => sub.isPrefixOf (c :: cs) || containsSub sub cs

/-- Substring containment, modelling JavaScript String.prototype.includes. -/
def containsSubstr (s sub : String) : Bool :=
  containsSub sub.data s.data

/-- The error registry of getTranscriptHandler (source lines 90-93): a cached
string is classified as an error by these startsWith tests. -/
def isLikelyError (s : String) : Bool :=
  jsStartsWith s "Error:" ||
  jsStartsWith s "No transcript" ||
  jsStartsWith s "Service temporarily busy" ||
  jsStartsWith s "Video not found"

/-- The error registry of getTranscript (source lines 227-231): one
startsWith test and four includes tests. -/
def isCachedError (s : String) : Bool :=
  jsStartsWith s "Error:" ||
  containsSubstr s "No transcript available" ||
  containsSubstr s "Service temporarily busy" ||
  containsSubstr s "Video not found or private" ||
  containsSubstr s "Transcripts are disabled"

/-- getTranscriptHandler (source lines 42-134), returning the MCP result
together with the trace of performed effects.
Faithfulness notes:
  - an empty extracted id is falsy in JavaScript, so `if (!videoId)` also
    rejects some "" (modelled by the videoId = "" test);
  - the counters run only when env.TRANSCRIPT_KV is truthy (lines 74-77) and
    their outcome is never observed (.catch(console.error));
  - a cached empty string is falsy, so `if (cachedData)` treats it as a miss;
  - every cache read fault is swallowed (lines 99-102) and the run proceeds
    to fetch;
  - the cache write (line 120) is attempted unconditionally and its fault is
    swallowed (lines 121-124). -/
def getTranscriptHandler (u : Urls) (input : ToolInput) (env : Env) :
    McpResult × List Effect :=
  let url := input.url
  let language := input.language.getD "en"
  if !u.isValidYouTubeUrl url then
    (⟨[⟨"text", "Error: Invalid YouTube URL provided."⟩], true⟩, [])
  else
    match u.extractVideoId (u.normalizeYouTubeUrl url) with
    | none => (⟨[⟨"text", "Error: Could not extract video ID from the URL."⟩], true⟩, [])
    | some videoId =>
      if videoId = "" then
        (⟨[⟨"text", "Error: Could not extract video ID from the URL."⟩], true⟩, [])
      else
        let effs0 : List Effect :=
          if env.kvPresent then
            [.counterDaily env.dailyOk, .counterVideo videoId env.videoOk]
          else []
        let effs1 := effs0 ++ [.cacheRead videoId language]
        let hit : Option String :=
          match env.readFault with
          | some _ => none
          | none =>
            match env.store (videoId, language) with
            | some s => if s = "" then none else some s
            | none => none
        match hit with
        | some s => (⟨[⟨"text", s⟩], isLikelyError s⟩, effs1)
        | none =>
          let effs2 := effs1 ++ [.fetch videoId language]
          match env.fetchResult videoId language with
          | .ok t =>
            (⟨[⟨"text", t⟩], false⟩,
             effs2 ++ [.cacheWrite videoId language t false env.writeFault.isNone])
          | .error e =>
            let t := env.classify e
            (⟨[⟨"text", t⟩], true⟩,
             effs2 ++ [.cacheWrite videoId language t true env.writeFault.isNone])

/-- getTranscript (source lines 199-278), the throwing variant: Except.error m
models a thrown Error(m).
Faithfulness notes:
  - the counters (lines 214-219), the analytics log (lines 257-260) and the
    cache write (lines 264-270) are all guarded by env.TRANSCRIPT_CACHE;
  - the cache-hit classification throws Error(cachedData) inside the same
    try block whose catch (lines 237-242) rethrows exactly when the caught
    message starts with "Error:" and otherwise logs and falls through to the
    fetch: a cached registry match not starting with "Error:" is therefore
    swallowed and the pipeline fetches anyway;
  - a cache read fault is rethrown exactly when its message starts with
    "Error:";
  - the analytics error name (line 258) is error.name when that is truthy
    and differs from "Error", else "FetchError". -/
def getTranscript (u : Urls) (url : String) (env : Env)
    (language : String := "en") : Except String String × List Effect :=
  if !u.isValidYouTubeUrl url then
    (.error "Invalid YouTube URL provided.", [])
  else
    match u.extractVideoId (u.normalizeYouTubeUrl url) with
    | none => (.error "Could not extract video ID from the URL.", [])
    | some videoId =>
      if videoId = "" then
        (.error "Could not extract video ID from the URL.", [])
      else
        let effs0 : List Effect :=
          if env.cachePresent then
            [.counterDaily env.dailyOk, .counterVideo videoId env.videoOk]
          else []
        let effs1 := effs0 ++ [.cacheRead videoId language]
        let readStep : Option (Except String String) :=
          match env.readFault with
          | some m => if jsStartsWith m "Error:" then some (.error m) else none
          | none =>
            match env.store (videoId, language) with
            | some s =>
              if s = "" then none
              else if isCachedError s then
                if jsStartsWith s "Error:" then some (.error s) else none
              else some (.ok s)
            | none => none
        match readStep with
        | some r => (r, effs1)
        | none =>
          let effs2 := effs1 ++ [.fetch videoId language]
          match env.fetchResult videoId language with
          | .ok t =>
            if env.cachePresent then
              (.ok t, effs2 ++ [.cacheWrite videoId language t false env.writeFault.isNone])
            else (.ok t, effs2)
          | .error e =>
            let t := env.classify e
            let errName := if e.name ≠ "" && e.name ≠ "Error" then e.name else "FetchError"
            let effs3 :=
              if env.cachePresent then
                effs2 ++ [.analyticsLog videoId false errName env.analyticsOk]
              else effs2
            if env.cachePresent then
              (.error t, effs3 ++ [.cacheWrite videoId language t true env.writeFault.isNone])
            else (.error t, effs3)

/-- Modelled from the spec: the result store semantics of ../utils/cache
(not under src/): set(id, lang, text, isError) persists text under key
(id, lang); a successful cacheWrite effect updates the store accordingly,
every other effect leaves it unchanged. -/
def applyEffect (s : String × String → Option String) :
    Effect → (String × String → Option String)
  | .cacheWrite id lang text _ true =>
      fun k => if k = (id, lang) then some text else s k
  | _ => s

/-- The store contents after a run: its initial contents updated by the
run's trace of effects. -/
def runStore (effs : List Effect) (s : String × String → Option String) :
    String × String → Option String :=
  effs.foldl applyEffect s

/-- Modelled from the spec: the URL Identifier of ../utils/url-normalize
(not under src/).  normalize rewrites the known alternate forms (short links
and embed links) into the canonical watch form and is idempotent. -/
def specNormalizeYouTubeUrl (url : String) : String :=
  if jsStartsWith url "https://youtu.be/" then
    "https://www.youtube.com/watch?v=" ++ String.mk (url.data.drop 17)
  else if jsStartsWith url "https://www.youtube.com/embed/" then
    "https://www.youtube.com/watch?v=" ++ String.mk (url.data.drop 30)
  else url

/-- Modelled from the spec: extractId pulls the identifier token from the
canonical watch form. -/
def specExtractVideoId (url : String) : Option String :=
  if jsStartsWith url "https://www.youtube.com/watch?v=" then
    some (String.mk (url.data.drop 32))
  else none

/-- Modelled from the spec: structural validation — the URL is acceptable
when a nonempty identifier can be derived from its normalized form. -/
def specIsValidYouTubeUrl (url : String) : Bool :=
  match specExtractVideoId (specNormalizeYouTubeUrl url) with
  | some id => id ≠ ""
  | none => false

/-- The URL utilities modelled from the spec, packaged for the pipeline. -/
def specUrls : Urls :=
  { isValidYouTubeUrl := specIsValidYouTubeUrl
  , normalizeYouTubeUrl := specNormalizeYouTubeUrl
  , extractVideoId := specExtractVideoId }

set_option maxRecDepth 4096

instance exceptDecEq {ε α : Type} [DecidableEq ε] [DecidableEq α] :
    DecidableEq (Except ε α)
  | .error a, .error b =>
    if h : a = b then .isTrue (congrArg Except.error h)
    else .isFalse (fun hh => h (Except.error.inj hh))
  | .error _, .ok _ => .isFalse (fun hh => Except.noConfusion hh)
  | .ok _, .error _ => .isFalse (fun hh => Except.noConfusion hh)
  | .ok a, .ok b =>
    if h : a = b then .isTrue (congrArg Except.ok h)
    else .isFalse (fun hh => h (Except.ok.inj hh))

/-- A concrete environment used to instantiate the parametric theorems:
empty cache, no faults, all stores present, a fetch capability returning a
fixed text, and a classifier producing a marker-tagged message. -/
def demoEnv : Env :=
  { kvPresent := true
  , cachePresent := true
  , store := fun _ => none
  , readFault := none
  , writeFault := none
  , dailyOk := true
  , videoOk := true
  , analyticsOk := true
  , fetchResult := fun _ _ => .ok "fetched text"
  , classify := fun e => "Error: " ++ e.message }

/-- A concrete canonical watch URL whose identifier is abc. -/
def watchUrl : String := "https://www.youtube.com/watch?v=abc"

/-- The environment of the concrete scenario of claim C9: empty cache, no
faults, fetch returns the text Hello world. -/
def c9Env : Env :=
  { demoEnv with fetchResult := fun _ _ => .ok "Hello world." }

/-- Claim C4: for every structurally invalid URL (isValidYouTubeUrl false),
both variants terminate with the invalid-input error (returned with isError
true in getTranscriptHandler, thrown in getTranscript) and the effect trace
is empty: no cache read, no cache write, no fetch. -/
theorem C4_invalid_url_terminal (u : Urls) (env : Env) (input : ToolInput)
    (url lang : String)
    (h1 : u.isValidYouTubeUrl input.url = false)
    (h2 : u.isValidYouTubeUrl url = false) :
    getTranscriptHandler u input env =
      (⟨[⟨"text", "Error: Invalid YouTube URL provided."⟩], true⟩, [])
    ∧ getTranscript u url env lang =
      (.error "Invalid YouTube URL provided.", []) := by
  constructor
  · simp [getTranscriptHandler, h1]
  · simp [getTranscript, h2]

/-- Witness for C4 at the concrete invalid URL "nope". -/
theorem C4_invalid_url_terminal_witness :
    getTranscriptHandler specUrls ⟨"nope", none⟩ demoEnv =
      (⟨[⟨"text", "Error: Invalid YouTube URL provided."⟩], true⟩, [])
    ∧ getTranscript specUrls "nope" demoEnv "en" =
      (.error "Invalid YouTube URL provided.", []) :=
  C4_invalid_url_terminal specUrls demoEnv ⟨"nope", none⟩ "nope" "en"
    (by decide) (by decide)

/-- Claim C6: a cache hit holding a success string (nonempty, matching no
error-signal entry of the respective registry) is returned exactly as a
success, the fetcher is not invoked, and no cache write happens, in both
variants. -/
theorem C6_success_hit (u : Urls) (env : Env) (url lang videoId s : String)
    (hv : u.isValidYouTubeUrl url = true)
    (hid : u.extractVideoId (u.normalizeYouTubeUrl url) = some videoId)
    (hne : videoId ≠ "")
    (hrf : env.readFault = none)
    (hs : env.store (videoId, lang) = some s)
    (hsne : s ≠ "")
    (h1 : isLikelyError s = false)
    (h2 : isCachedError s = false) :
    (getTranscriptHandler u ⟨url, some lang⟩ env).1 = ⟨[⟨"text", s⟩], false⟩
    ∧ (∀ i l, Effect.fetch i l ∉ (getTranscriptHandler u ⟨url, some lang⟩ env).2)
    ∧ (∀ i l t b o, Effect.cacheWrite i l t b o ∉ (getTranscriptHandler u ⟨url, some lang⟩ env).2)
    ∧ (getTranscript u url env lang).1 = .ok s
    ∧ (∀ i l, Effect.fetch i l ∉ (getTranscript u url env lang).2)
    ∧ (∀ i l t b o, Effect.cacheWrite i l t b o ∉ (getTranscript u url env lang).2) := by
  refine ⟨?_, ?_, ?_, ?_, ?_, ?_⟩ <;>
    by_cases hk : env.kvPresent <;> by_cases hc : env.cachePresent <;>
    simp [getTranscriptHandler, getTranscript, hv, hid, hne, hrf, hs, hsne, h1, h2, hk, hc]

/-- Witness for C6: cache holds the success string Hello world. -/
theorem C6_success_hit_witness :
    (getTranscriptHandler specUrls ⟨watchUrl, some "en"⟩
        { demoEnv with store := fun k => if k = ("abc", "en") then some "Hello world." else none }).1 =
      ⟨[⟨"text", "Hello world."⟩], false⟩
    ∧ (∀ i l, Effect.fetch i l ∉ (getTranscriptHandler specUrls ⟨watchUrl, some "en"⟩
        { demoEnv with store := fun k => if k = ("abc", "en") then some "Hello world." else none }).2)
    ∧ (∀ i l t b o, Effect.cacheWrite i l t b o ∉ (getTranscriptHandler specUrls ⟨watchUrl, some "en"⟩
        { demoEnv with store := fun k => if k = ("abc", "en") then some "Hello world." else none }).2)
    ∧ (getTranscript specUrls watchUrl
        { demoEnv with store := fun k => if k = ("abc", "en") then some "Hello world." else none } "en").1 =
      .ok "Hello world."
    ∧ (∀ i l, Effect.fetch i l ∉ (getTranscript specUrls watchUrl
        { demoEnv with store := fun k => if k = ("abc", "en") then some "Hello world." else none } "en").2)
    ∧ (∀ i l t b o, Effect.cacheWrite i l t b o ∉ (getTranscript specUrls watchUrl
        { demoEnv with store := fun k => if k = ("abc", "en") then some "Hello world." else none } "en").2) :=
  C6_success_hit specUrls
    { demoEnv with store := fun k => if k = ("abc", "en") then some "Hello world." else none }
    watchUrl "en" "abc" "Hello world."
    (by decide) (by decide) (by decide) (by decide) (by decide) (by decide)
    (by decide) (by decide)

/-- Claim C9: concrete scenario — short link https://youtu.be/abc123 with
language omitted: the language defaults to en, the identifier is abc123, a
cache miss followed by a fetch returning Hello world. yields that text as a
success, and the store afterwards holds it under key (abc123, en).  Both
variants are covered; in getTranscript the language argument is omitted and
defaults to en. -/
theorem C9_short_link_scenario :
    specIsValidYouTubeUrl "https://youtu.be/abc123" = true
    ∧ specExtractVideoId (specNormalizeYouTubeUrl "https://youtu.be/abc123") = some "abc123"
    ∧ (getTranscriptHandler specUrls ⟨"https://youtu.be/abc123", none⟩ c9Env).1 =
        ⟨[⟨"text", "Hello world."⟩], false⟩
    ∧ Effect.cacheRead "abc123" "en" ∈ (getTranscriptHandler specUrls ⟨"https://youtu.be/abc123", none⟩ c9Env).2
    ∧ runStore (getTranscriptHandler specUrls ⟨"https://youtu.be/abc123", none⟩ c9Env).2
        (fun _ => none) ("abc123", "en") = some "Hello world."
    ∧ (getTranscript specUrls "https://youtu.be/abc123" c9Env).1 = .ok "Hello world."
    ∧ runStore (getTranscript specUrls "https://youtu.be/abc123" c9Env).2
        (fun _ => none) ("abc123", "en") = some "Hello world." := by
  decide

/-- Claim C10: getTranscriptHandler is total (modelled as a total Lean
function: every fault of the collaborators is either an Env-recorded outcome
or swallowed by the source try/catch blocks) and always returns a result
whose content is one single text item. -/
theorem C10_handler_shape (u : Urls) (input : ToolInput) (env : Env) :
    ∃ t : String, (getTranscriptHandler u input env).1.content = [⟨"text", t⟩] := by
  simp only [getTranscriptHandler]
  repeat' split <;> try exact ⟨_, rfl⟩

/-- Claim C8: two-run noninterference over counter outcomes — the result
(returned MCP value, or returned text / thrown message) is identical in the
run where the fire-and-forget counter and analytics increments succeed and in
the run where they fail; only the effect trace records their outcomes. -/
theorem C8_counter_noninterference (u : Urls) (input : ToolInput)
    (url lang : String) (env : Env) (d1 v1 a1 d2 v2 a2 : Bool) :
    (getTranscriptHandler u input
        { env with dailyOk := d1, videoOk := v1, analyticsOk := a1 }).1 =
      (getTranscriptHandler u input
        { env with dailyOk := d2, videoOk := v2, analyticsOk := a2 }).1
    ∧ (getTranscript u url
        { env with dailyOk := d1, videoOk := v1, analyticsOk := a1 } lang).1 =
      (getTranscript u url
        { env with dailyOk := d2, videoOk := v2, analyticsOk := a2 } lang).1 := by
  obtain ⟨kv, cp, st, rf, wf, d, v, a, fr, cl⟩ := env
  constructor <;>
  · simp only [getTranscriptHandler, getTranscript]
    repeat' split <;> try rfl

/-- Claim C5: on a cache miss whose fetch fails, the presentable string
produced by the classifier applied to the raw fault is the value returned as
a failure (flag variant) or thrown (throwing variant), every cache write of
the run carries exactly that classified string and never the raw fault, and
the write is performed (in the throwing variant whenever the cache binding is
present, which is the only case in which that variant writes at all). -/
theorem C5_fetch_failure_classified (u : Urls) (env : Env)
    (url lang videoId : String) (e : FetchError)
    (hv : u.isValidYouTubeUrl url = true)
    (hid : u.extractVideoId (u.normalizeYouTubeUrl url) = some videoId)
    (hne : videoId ≠ "")
    (hrf : env.readFault = none)
    (hmiss : env.store (videoId, lang) = none)
    (hf : env.fetchResult videoId lang = .error e) :
    (getTranscriptHandler u ⟨url, some lang⟩ env).1 = ⟨[⟨"text", env.classify e⟩], true⟩
    ∧ Effect.cacheWrite videoId lang (env.classify e) true env.writeFault.isNone
        ∈ (getTranscriptHandler u ⟨url, some lang⟩ env).2
    ∧ (∀ i l t b o, Effect.cacheWrite i l t b o ∈ (getTranscriptHandler u ⟨url, some lang⟩ env).2 →
        t = env.classify e)
    ∧ (getTranscript u url env lang).1 = .error (env.classify e)
    ∧ (env.cachePresent = true →
        Effect.cacheWrite videoId lang (env.classify e) true env.writeFault.isNone
          ∈ (getTranscript u url env lang).2)
    ∧ (∀ i l t b o, Effect.cacheWrite i l t b o ∈ (getTranscript u url env lang).2 →
        t = env.classify e) := by
  refine ⟨?_, ?_, ?_, ?_, ?_, ?_⟩ <;>
    by_cases hk : env.kvPresent <;> by_cases hc : env.cachePresent <;>
    simp [getTranscriptHandler, getTranscript, hv, hid, hne, hrf, hmiss, hf, hk, hc] <;>
    tauto

/-- A concrete environment whose fetch fails with a disabled-transcripts
fault, used to instantiate the failure-path theorems. -/
def c5Env : Env :=
  { demoEnv with
    fetchResult := fun _ _ => .error ⟨"TranscriptsDisabled", "boom"⟩ }

/-- Witness for C5 at a concrete failing fetch. -/
theorem C5_fetch_failure_classified_witness :
    (getTranscriptHandler specUrls ⟨watchUrl, some "en"⟩ c5Env).1 =
      ⟨[⟨"text", c5Env.classify ⟨"TranscriptsDisabled", "boom"⟩⟩], true⟩
    ∧ Effect.cacheWrite "abc" "en" (c5Env.classify ⟨"TranscriptsDisabled", "boom"⟩) true
        c5Env.writeFault.isNone ∈ (getTranscriptHandler specUrls ⟨watchUrl, some "en"⟩ c5Env).2
    ∧ (∀ i l t b o, Effect.cacheWrite i l t b o ∈ (getTranscriptHandler specUrls ⟨watchUrl, some "en"⟩ c5Env).2 →
        t = c5Env.classify ⟨"TranscriptsDisabled", "boom"⟩)
    ∧ (getTranscript specUrls watchUrl c5Env "en").1 =
      .error (c5Env.classify ⟨"TranscriptsDisabled", "boom"⟩)
    ∧ (c5Env.cachePresent = true →
        Effect.cacheWrite "abc" "en" (c5Env.classify ⟨"TranscriptsDisabled", "boom"⟩) true
          c5Env.writeFault.isNone ∈ (getTranscript specUrls watchUrl c5Env "en").2)
    ∧ (∀ i l t b o, Effect.cacheWrite i l t b o ∈ (getTranscript specUrls watchUrl c5Env "en").2 →
        t = c5Env.classify ⟨"TranscriptsDisabled", "boom"⟩) :=
  C5_fetch_failure_classified specUrls c5Env watchUrl "en" "abc"
    ⟨"TranscriptsDisabled", "boom"⟩
    (by decide) (by decide) (by decide) (by decide) (by decide) (by decide)

/-- The environment of the C1 counterexample: the cache holds, under key
(abc, en), the string No transcript available — a member of the error
registry of getTranscript (it contains the registered substring and does not
start with the Error: marker). -/
def c1Env : Env :=
  { demoEnv with
    store := fun k => if k = ("abc", "en") then some "No transcript available" else none }

/-- Counterexample to claim C1 as stated: the cached text matches the error
registry of getTranscript, yet the request is NOT reported as a failure
carrying that text — the thrown classification is swallowed by the catch
block (its message does not start with Error:), the Transcript Fetcher IS
invoked, and the run returns the freshly fetched text as a success. -/
theorem C1_error_hit_counterexample :
    isCachedError "No transcript available" = true
    ∧ (getTranscript specUrls watchUrl c1Env "en").1 = .ok "fetched text"
    ∧ Effect.fetch "abc" "en" ∈ (getTranscript specUrls watchUrl c1Env "en").2 := by
  decide

/-- Claim C1 as amended: a cache hit matching the error registry is reported
as a failure with exactly the cached text and without invoking the fetcher
(a) in getTranscriptHandler for every match of its registry, and (b) in
getTranscript exactly for cached texts starting with the Error: marker; a
getTranscript registry match that does not start with the marker is swallowed
and the fetcher is invoked. -/
theorem C1_error_hit_amended (u : Urls) (env : Env)
    (url lang videoId s : String)
    (hv : u.isValidYouTubeUrl url = true)
    (hid : u.extractVideoId (u.normalizeYouTubeUrl url) = some videoId)
    (hne : videoId ≠ "")
    (hrf : env.readFault = none)
    (hs : env.store (videoId, lang) = some s)
    (hsne : s ≠ "") :
    (isLikelyError s = true →
      (getTranscriptHandler u ⟨url, some lang⟩ env).1 = ⟨[⟨"text", s⟩], true⟩
      ∧ (∀ i l, Effect.fetch i l ∉ (getTranscriptHandler u ⟨url, some lang⟩ env).2))
    ∧ (jsStartsWith s "Error:" = true →
      (getTranscript u url env lang).1 = .error s
      ∧ (∀ i l, Effect.fetch i l ∉ (getTranscript u url env lang).2))
    ∧ (isCachedError s = true → jsStartsWith s "Error:" = false →
      Effect.fetch videoId lang ∈ (getTranscript u url env lang).2) := by
  refine ⟨fun h1 => ?_, fun h2 => ?_, fun h3 h4 => ?_⟩
  · constructor <;>
    · by_cases hk : env.kvPresent <;>
      simp [getTranscriptHandler, hv, hid, hne, hrf, hs, hsne, h1, hk]
  · have hce : isCachedError s = true := by simp [isCachedError, h2]
    constructor <;>
    · by_cases hc : env.cachePresent <;>
      simp [getTranscript, hv, hid, hne, hrf, hs, hsne, h2, hce, hc]
  · rcases hfr : env.fetchResult videoId lang with t | e <;>
    by_cases hc : env.cachePresent <;>
    simp [getTranscript, hv, hid, hne, hrf, hs, hsne, h3, h4, hc, hfr]

/-- Witness for the amended C1: a cache hit with the marker-tagged text
Error: known bad is failed without a fetch in both variants. -/
theorem C1_error_hit_amended_witness :
    (isLikelyError "Error: known bad" = true →
      (getTranscriptHandler specUrls ⟨watchUrl, some "en"⟩
        { demoEnv with store := fun k => if k = ("abc", "en") then some "Error: known bad" else none }).1 =
        ⟨[⟨"text", "Error: known bad"⟩], true⟩
      ∧ (∀ i l, Effect.fetch i l ∉ (getTranscriptHandler specUrls ⟨watchUrl, some "en"⟩
        { demoEnv with store := fun k => if k = ("abc", "en") then some "Error: known bad" else none }).2))
    ∧ (jsStartsWith "Error: known bad" "Error:" = true →
      (getTranscript specUrls watchUrl
        { demoEnv with store := fun k => if k = ("abc", "en") then some "Error: known bad" else none } "en").1 =
        .error "Error: known bad"
      ∧ (∀ i l, Effect.fetch i l ∉ (getTranscript specUrls watchUrl
        { demoEnv with store := fun k => if k = ("abc", "en") then some "Error: known bad" else none } "en").2))
    ∧ (isCachedError "Error: known bad" = true → jsStartsWith "Error: known bad" "Error:" = false →
      Effect.fetch "abc" "en" ∈ (getTranscript specUrls watchUrl
        { demoEnv with store := fun k => if k = ("abc", "en") then some "Error: known bad" else none } "en").2) :=
  C1_error_hit_amended specUrls
    { demoEnv with store := fun k => if k = ("abc", "en") then some "Error: known bad" else none }
    watchUrl "en" "abc" "Error: known bad"
    (by decide) (by decide) (by decide) (by decide) (by decide) (by decide)

/-- The environment of the C2 counterexample: the cache read faults with a
message that starts with the Error: marker. -/
def c2Env : Env :=
  { demoEnv with readFault := some "Error: store down" }

/-- Counterexample to claim C2 as stated: in getTranscriptHandler a cache
read fault whose message starts with the Error: marker is NOT surfaced as the
request failure — it is swallowed like any other read fault, the run proceeds
to fetch and returns the fetched text as a success. -/
theorem C2_read_fault_counterexample :
    jsStartsWith "Error: store down" "Error:" = true
    ∧ (getTranscriptHandler specUrls ⟨watchUrl, some "en"⟩ c2Env).1 =
        ⟨[⟨"text", "fetched text"⟩], false⟩
    ∧ Effect.fetch "abc" "en" ∈ (getTranscriptHandler specUrls ⟨watchUrl, some "en"⟩ c2Env).2 := by
  decide

/-- Claim C2 as amended: a storage-layer fault raised during the cache read
never fails the pipeline hard in getTranscriptHandler — the lookup is treated
as absent and the run proceeds to fetch whatever the fault message is; the
marker exception exists only in getTranscript, where a fault whose message
starts with Error: is rethrown as the request failure and any other fault is
treated as absent. -/
theorem C2_read_fault_amended (u : Urls) (env : Env)
    (url lang videoId m : String)
    (hv : u.isValidYouTubeUrl url = true)
    (hid : u.extractVideoId (u.normalizeYouTubeUrl url) = some videoId)
    (hne : videoId ≠ "")
    (hrf : env.readFault = some m) :
    (Effect.fetch videoId lang ∈ (getTranscriptHandler u ⟨url, some lang⟩ env).2
      ∧ (match env.fetchResult videoId lang with
         | .ok t => (getTranscriptHandler u ⟨url, some lang⟩ env).1 = ⟨[⟨"text", t⟩], false⟩
         | .error e => (getTranscriptHandler u ⟨url, some lang⟩ env).1 =
             ⟨[⟨"text", env.classify e⟩], true⟩))
    ∧ (jsStartsWith m "Error:" = true →
        (getTranscript u url env lang).1 = .error m
        ∧ (∀ i l, Effect.fetch i l ∉ (getTranscript u url env lang).2))
    ∧ (jsStartsWith m "Error:" = false →
        Effect.fetch videoId lang ∈ (getTranscript u url env lang).2
        ∧ (match env.fetchResult videoId lang with
           | .ok t => (getTranscript u url env lang).1 = .ok t
           | .error e => (getTranscript u url env lang).1 = .error (env.classify e))) := by
  refine ⟨⟨?_, ?_⟩, fun h2 => ?_, fun h3 => ?_⟩
  · by_cases hk : env.kvPresent <;>
    rcases hfr : env.fetchResult videoId lang with t | e <;>
    simp [getTranscriptHandler, hv, hid, hne, hrf, hk, hfr]
  · rcases hfr : env.fetchResult videoId lang with t | e <;>
    by_cases hk : env.kvPresent <;>
    simp [getTranscriptHandler, hv, hid, hne, hrf, hk, hfr]
  · constructor <;>
    · by_cases hc : env.cachePresent <;>
      simp [getTranscript, hv, hid, hne, hrf, h2, hc]
  · rcases hfr : env.fetchResult videoId lang with t | e <;>
    by_cases hc : env.cachePresent <;>
    simp [getTranscript, hv, hid, hne, hrf, h3, hc, hfr]

/-- Witness for the amended C2: a read fault KV timeout (no marker) makes
both variants proceed to fetch. -/
theorem C2_read_fault_amended_witness :
    (Effect.fetch "abc" "en" ∈ (getTranscriptHandler specUrls ⟨watchUrl, some "en"⟩
        { demoEnv with readFault := some "KV timeout" }).2
      ∧ (match Env.fetchResult { demoEnv with readFault := some "KV timeout" } "abc" "en" with
         | .ok t => (getTranscriptHandler specUrls ⟨watchUrl, some "en"⟩
             { demoEnv with readFault := some "KV timeout" }).1 = ⟨[⟨"text", t⟩], false⟩
         | .error e => (getTranscriptHandler specUrls ⟨watchUrl, some "en"⟩
             { demoEnv with readFault := some "KV timeout" }).1 =
             ⟨[⟨"text", Env.classify { demoEnv with readFault := some "KV timeout" } e⟩], true⟩))
    ∧ (jsStartsWith "KV timeout" "Error:" = true →
        (getTranscript specUrls watchUrl { demoEnv with readFault := some "KV timeout" } "en").1 =
          .error "KV timeout"
        ∧ (∀ i l, Effect.fetch i l ∉ (getTranscript specUrls watchUrl
            { demoEnv with readFault := some "KV timeout" } "en").2))
    ∧ (jsStartsWith "KV timeout" "Error:" = false →
        Effect.fetch "abc" "en" ∈ (getTranscript specUrls watchUrl
          { demoEnv with readFault := some "KV timeout" } "en").2
        ∧ (match Env.fetchResult { demoEnv with readFault := some "KV timeout" } "abc" "en" with
           | .ok t => (getTranscript specUrls watchUrl
               { demoEnv with readFault := some "KV timeout" } "en").1 = .ok t
           | .error e => (getTranscript specUrls watchUrl
               { demoEnv with readFault := some "KV timeout" } "en").1 =
               .error (Env.classify { demoEnv with readFault := some "KV timeout" } e))) :=
  C2_read_fault_amended specUrls { demoEnv with readFault := some "KV timeout" }
    watchUrl "en" "abc" "KV timeout"
    (by decide) (by decide) (by decide) (by decide)

/-- Counterexample to claim C3 as stated: on the structurally invalid URL
nope, getTranscriptHandler reports the text Error: Invalid YouTube URL
provided. with isError true, but getTranscript throws the different message
Invalid YouTube URL provided. — the two calling conventions do not agree on
the failure text. -/
theorem C3_equivalence_counterexample :
    (getTranscriptHandler specUrls ⟨"nope", some "en"⟩ demoEnv).1 =
      ⟨[⟨"text", "Error: Invalid YouTube URL provided."⟩], true⟩
    ∧ (getTranscript specUrls "nope" demoEnv "en").1 =
      .error "Invalid YouTube URL provided."
    ∧ (getTranscript specUrls "nope" demoEnv "en").1 ≠
      .error "Error: Invalid YouTube URL provided." := by
  decide

/-- Claim C3 as amended: the two calling conventions agree (isError false
with text t exactly when getTranscript returns t, and isError true with text
t exactly when getTranscript throws t) on every run with a valid URL, a
derived identifier, a non-faulting cache read, and a cache value that is
absent or classified as a success by both registries; they diverge on
invalid URLs, on error-classified hits and on faulting reads. -/
theorem C3_equivalence_amended (u : Urls) (env : Env)
    (url lang videoId : String)
    (hv : u.isValidYouTubeUrl url = true)
    (hid : u.extractVideoId (u.normalizeYouTubeUrl url) = some videoId)
    (hne : videoId ≠ "")
    (hrf : env.readFault = none)
    (hstore : ∀ s, env.store (videoId, lang) = some s → s ≠ "" →
        isLikelyError s = false ∧ isCachedError s = false) :
    match (getTranscript u url env lang).1 with
    | .ok t => (getTranscriptHandler u ⟨url, some lang⟩ env).1 = ⟨[⟨"text", t⟩], false⟩
    | .error t => (getTranscriptHandler u ⟨url, some lang⟩ env).1 = ⟨[⟨"text", t⟩], true⟩ := by
  rcases hs : env.store (videoId, lang) with _ | s
  · rcases hfr : env.fetchResult videoId lang with t | e <;>
    by_cases hk : env.kvPresent <;> by_cases hc : env.cachePresent <;>
    simp [getTranscript, getTranscriptHandler, hv, hid, hne, hrf, hs, hfr, hk, hc]
  · by_cases hse : s = ""
    · subst hse
      rcases hfr : env.fetchResult videoId lang with t | e <;>
      by_cases hk : env.kvPresent <;> by_cases hc : env.cachePresent <;>
      simp [getTranscript, getTranscriptHandler, hv, hid, hne, hrf, hs, hfr, hk, hc]
    · obtain ⟨hl, hcer⟩ := hstore s hs hse
      by_cases hk : env.kvPresent <;> by_cases hc : env.cachePresent <;>
      simp [getTranscript, getTranscriptHandler, hv, hid, hne, hrf, hs, hse, hl, hcer, hk, hc]

/-- Witness for the amended C3 on a concrete empty-cache run. -/
theorem C3_equivalence_amended_witness :
    match (getTranscript specUrls watchUrl demoEnv "en").1 with
    | .ok t => (getTranscriptHandler specUrls ⟨watchUrl, some "en"⟩ demoEnv).1 =
        ⟨[⟨"text", t⟩], false⟩
    | .error t => (getTranscriptHandler specUrls ⟨watchUrl, some "en"⟩ demoEnv).1 =
        ⟨[⟨"text", t⟩], true⟩ :=
  C3_equivalence_amended specUrls demoEnv watchUrl "en" "abc"
    (by decide) (by decide) (by decide) (by decide)
    (fun s hs => Option.noConfusion hs)

/-- The environment of the C7 counterexample: the cache store binding is
absent (env.TRANSCRIPT_CACHE falsy), everything else as in the demo
environment. -/
def c7Env : Env :=
  { demoEnv with cachePresent := false }

/-- Counterexample to claim C7 as stated: on a cache miss in getTranscript
with the store binding absent, the fetch completes and the outcome is NOT
written to the cache — the trace ends after the fetch, with no cacheWrite
effect. -/
theorem C7_write_counterexample :
    (getTranscript specUrls watchUrl c7Env "en").1 = .ok "fetched text"
    ∧ (getTranscript specUrls watchUrl c7Env "en").2 =
      [.cacheRead "abc" "en", .fetch "abc" "en"] := by
  decide

/-- Claim C7 as amended: on a cache miss, after the fetch completes the
outcome string is written to the cache — unconditionally in
getTranscriptHandler, and in getTranscript whenever the store binding is
present — and a faulting cache write is swallowed: the caller receives
exactly the same result as in the run whose write succeeds. -/
theorem C7_write_fault_amended (u : Urls) (env : Env)
    (url lang videoId m : String)
    (hv : u.isValidYouTubeUrl url = true)
    (hid : u.extractVideoId (u.normalizeYouTubeUrl url) = some videoId)
    (hne : videoId ≠ "")
    (hrf : env.readFault = none)
    (hmiss : env.store (videoId, lang) = none) :
    (getTranscriptHandler u ⟨url, some lang⟩ { env with writeFault := some m }).1 =
      (getTranscriptHandler u ⟨url, some lang⟩ { env with writeFault := none }).1
    ∧ (match env.fetchResult videoId lang with
       | .ok t => Effect.cacheWrite videoId lang t false false ∈
           (getTranscriptHandler u ⟨url, some lang⟩ { env with writeFault := some m }).2
       | .error e => Effect.cacheWrite videoId lang (env.classify e) true false ∈
           (getTranscriptHandler u ⟨url, some lang⟩ { env with writeFault := some m }).2)
    ∧ (getTranscript u url { env with writeFault := some m } lang).1 =
      (getTranscript u url { env with writeFault := none } lang).1
    ∧ (env.cachePresent = true →
       match env.fetchResult videoId lang with
       | .ok t => Effect.cacheWrite videoId lang t false false ∈
           (getTranscript u url { env with writeFault := some m } lang).2
       | .error e => Effect.cacheWrite videoId lang (env.classify e) true false ∈
           (getTranscript u url { env with writeFault := some m } lang).2) := by
  refine ⟨?_, ?_, ?_, fun hc => ?_⟩ <;>
  rcases hfr : env.fetchResult videoId lang with t | e <;>
  by_cases hk : env.kvPresent <;> by_cases hc2 : env.cachePresent <;>
  simp [getTranscript, getTranscriptHandler, hv, hid, hne, hrf, hmiss, hfr, hk, hc2] <;>
  exact (hc2 hc).elim

/-- Witness for the amended C7: a concrete run whose cache write faults with
disk full still returns the fetched text, and the failed write attempt is in
the trace. -/
theorem C7_write_fault_amended_witness :
    (getTranscriptHandler specUrls ⟨watchUrl, some "en"⟩ { demoEnv with writeFault := some "disk full" }).1 =
      (getTranscriptHandler specUrls ⟨watchUrl, some "en"⟩ { demoEnv with writeFault := none }).1
    ∧ (match demoEnv.fetchResult "abc" "en" with
       | .ok t => Effect.cacheWrite "abc" "en" t false false ∈
           (getTranscriptHandler specUrls ⟨watchUrl, some "en"⟩ { demoEnv with writeFault := some "disk full" }).2
       | .error e => Effect.cacheWrite "abc" "en" (demoEnv.classify e) true false ∈
           (getTranscriptHandler specUrls ⟨watchUrl, some "en"⟩ { demoEnv with writeFault := some "disk full" }).2)
    ∧ (getTranscript specUrls watchUrl { demoEnv with writeFault := some "disk full" } "en").1 =
      (getTranscript specUrls watchUrl { demoEnv with writeFault := none } "en").1
    ∧ (demoEnv.cachePresent = true →
       match demoEnv.fetchResult "abc" "en" with
       | .ok t => Effect.cacheWrite "abc" "en" t false false ∈
           (getTranscript specUrls watchUrl { demoEnv with writeFault := some "disk full" } "en").2
       | .error e => Effect.cacheWrite "abc" "en" (demoEnv.classify e) true false ∈
           (getTranscript specUrls watchUrl { demoEnv with writeFault := some "disk full" } "en").2) :=
  C7_write_fault_amended specUrls demoEnv watchUrl "en" "abc" "disk full"
    (by decide) (by decide) (by decide) (by decide) (by decide)
